import Mathlib

/-!
Verification of the risk-scoring and optimal-matching core of the
TutorScoring backend, shallowly embedded in Lean 4.

Conventions of the embedding:
- Python numbers (ints, floats, Decimals) are modelled as exact rationals;
  nullable columns and optional attributes are modelled with Option.
- Datetimes are modelled as integers (seconds); a day is 86400 seconds.
- The SQLAlchemy store is modelled as explicit lists of records; commits
  are modelled as returning the updated list.
- Fallible operations return Except.
-/

/-- Python truthiness of an optional string: None and the empty string are
falsy (the source tests styles with a bare `if`, not `is not None`). -/
def pyTruthyStr : Option String → Bool
  | none => false
  | some s => !s.isEmpty

/-- Python `float(x) if x else default` on an optional integer: both None
and 0 fall back to the default. -/
def pyFloatOr (x : Option ℤ) (d : ℚ) : ℚ :=
  match x with
  | none => d
  | some v => if v = 0 then d else (v : ℚ)

/-- Student profile (app/models/student.py); fields of matching interest.
The scoring functions guard every attribute against None, so each is
modelled as optional. -/
structure Student where
  id : ℕ
  age : Option ℤ
  preferred_pace : Option ℤ
  preferred_teaching_style : Option String
  communication_style_preference : Option ℤ
  urgency_level : Option ℤ
  previous_tutoring_experience : Option ℤ
  previous_satisfaction : Option ℤ
deriving DecidableEq

/-- Tutor profile (app/models/tutor.py); matching-preference fields are
nullable in the schema. -/
structure Tutor where
  id : ℕ
  age : Option ℤ
  experience_years : Option ℤ
  teaching_style : Option String
  preferred_pace : Option ℤ
  communication_style : Option ℤ
  confidence_level : Option ℤ
deriving DecidableEq

/-- The four mismatch scores returned by calculate_mismatch_scores
(a Python dict with exactly these keys). -/
structure MismatchScores where
  pace_mismatch : ℚ
  style_mismatch : ℚ
  communication_mismatch : ℚ
  age_difference : ℚ
deriving DecidableEq

/-- app/services/feature_engineering.py, calculate_mismatch_scores. -/
def calculate_mismatch_scores (student : Student) (tutor : Tutor) : MismatchScores :=
  let pace : ℚ :=
    match student.preferred_pace, tutor.preferred_pace with
    | some a, some b => |(a : ℚ) - (b : ℚ)|
    | _, _ => 5/2
  let style : ℚ :=
    if pyTruthyStr student.preferred_teaching_style && pyTruthyStr tutor.teaching_style then
      if (student.preferred_teaching_style.getD "").toLower
          = (tutor.teaching_style.getD "").toLower then 0 else 1
    else 1/2
  let comm : ℚ :=
    match student.communication_style_preference, tutor.communication_style with
    | some a, some b => |(a : ℚ) - (b : ℚ)|
    | _, _ => 5/2
  let ageDiff : ℚ :=
    match student.age, tutor.age with
    | some a, some b => |(a : ℚ) - (b : ℚ)|
    | _, _ => 10
  { pace_mismatch := pace, style_mismatch := style,
    communication_mismatch := comm, age_difference := ageDiff }

/-- app/services/feature_engineering.py, calculate_compatibility_score:
weighted normalized mismatch, inverted and clamped to the unit interval. -/
def calculate_compatibility_score (m : MismatchScores) : ℚ :=
  let normalized_pace := min (m.pace_mismatch / 4) 1
  let normalized_style := m.style_mismatch
  let normalized_comm := min (m.communication_mismatch / 4) 1
  let normalized_age := min (m.age_difference / 20) 1
  let weighted_mismatch :=
    3/10 * normalized_pace + 3/10 * normalized_style
      + 2/10 * normalized_comm + 2/10 * normalized_age
  max 0 (min 1 (1 - weighted_mismatch))

/-- Tutor statistics dictionary passed to scoring (built by callers from the
TutorScore record). -/
structure TutorStats where
  reschedule_rate_30d : ℚ
  total_sessions_30d : ℤ
  is_high_risk : Bool
deriving DecidableEq

/-- app/services/feature_engineering.py, extract_features: the ordered
feature dictionary, modelled as an association list in insertion order. -/
def extract_features (student : Student) (tutor : Tutor) (tutor_stats : Option TutorStats) :
    List (String × ℚ) :=
  let m := calculate_mismatch_scores student tutor
  [ ("pace_mismatch", m.pace_mismatch),
    ("style_mismatch", m.style_mismatch),
    ("communication_mismatch", m.communication_mismatch),
    ("age_difference", m.age_difference),
    ("student_age", pyFloatOr student.age 15),
    ("student_pace", pyFloatOr student.preferred_pace 3),
    ("student_urgency", pyFloatOr student.urgency_level 3),
    ("student_experience", pyFloatOr student.previous_tutoring_experience 0),
    ("student_satisfaction", pyFloatOr student.previous_satisfaction 3),
    ("tutor_age", pyFloatOr tutor.age 30),
    ("tutor_experience", pyFloatOr tutor.experience_years 2),
    ("tutor_confidence", pyFloatOr tutor.confidence_level 3),
    ("tutor_pace", pyFloatOr tutor.preferred_pace 3) ]
  ++ (match tutor_stats with
      | some st =>
        [ ("tutor_reschedule_rate_30d", st.reschedule_rate_30d),
          ("tutor_total_sessions_30d", (st.total_sessions_30d : ℚ)),
          ("tutor_is_high_risk", if st.is_high_risk then 1 else 0) ]
      | none =>
        [ ("tutor_reschedule_rate_30d", 0),
          ("tutor_total_sessions_30d", 0),
          ("tutor_is_high_risk", 0) ])
  ++ [ ("compatibility_score", calculate_compatibility_score m) ]

/-- Reasons load_model raises in app/services/match_prediction_service.py:
the model artifact file is missing, or the ML libraries are not importable. -/
inductive LoadFailure where
  | fileNotFound : LoadFailure
  | libsMissing : LoadFailure
deriving DecidableEq

/-- The loaded classifier artifact: an abstract probability function plus its
declared feature ordering (load_model returns model, feature_names,
metadata; the metadata plays no role in prediction). -/
structure ModelBundle where
  predict_proba : List ℚ → ℚ
  feature_names : List String

/-- app/services/match_prediction_service.py, determine_risk_level with its
two thresholds (defaults 0.3 and 0.7, overridable via environment; the
thresholds are passed explicitly here). -/
def determine_risk_level (probability low_threshold high_threshold : ℚ) : String :=
  if probability < low_threshold then "low"
  else if probability < high_threshold then "medium"
  else "high"

/-- app/services/match_prediction_service.py, predict_churn_risk. The result
of load_model is passed in as an Except value: an error value corresponds to
the FileNotFoundError / ImportError branch, which is caught and answered with
the rule-based fallback 1 - compatibility. -/
def predict_churn_risk (load : Except LoadFailure ModelBundle)
    (student : Student) (tutor : Tutor) (tutor_stats : Option TutorStats) : ℚ :=
  match load with
  | .error _ =>
    let mismatch_scores := calculate_mismatch_scores student tutor
    let compatibility := calculate_compatibility_score mismatch_scores
    1 - compatibility
  | .ok m =>
    let features := extract_features student tutor tutor_stats
    let feature_vector :=
      if m.feature_names.isEmpty then features.map (fun kv => kv.2)
      else m.feature_names.map (fun name => ((features.lookup name).getD 0))
    m.predict_proba feature_vector

/-- Result dictionary of predict_match. -/
structure PredictMatchData where
  churn_probability : ℚ
  risk_level : String
  compatibility_score : ℚ
  mismatch_scores : MismatchScores
deriving DecidableEq

/-- app/services/match_prediction_service.py, predict_match. -/
def predict_match (load : Except LoadFailure ModelBundle)
    (student : Student) (tutor : Tutor) (tutor_stats : Option TutorStats) : PredictMatchData :=
  let mismatch_scores := calculate_mismatch_scores student tutor
  let compatibility_score := calculate_compatibility_score mismatch_scores
  let churn_probability := predict_churn_risk load student tutor tutor_stats
  let risk_level := determine_risk_level churn_probability (3/10) (7/10)
  { churn_probability := churn_probability, risk_level := risk_level,
    compatibility_score := compatibility_score, mismatch_scores := mismatch_scores }

/-- A persisted MatchPrediction row (app/models/match_prediction.py). -/
structure MatchPredictionRow where
  student_id : ℕ
  tutor_id : ℕ
  churn_probability : ℚ
  risk_level : String
  compatibility_score : ℚ
  pace_mismatch : ℚ
  style_mismatch : ℚ
  communication_mismatch : ℚ
  age_difference : ℤ
  ai_explanation : Option String
  model_version : Option String
deriving DecidableEq

/-- The first row matching the (student_id, tutor_id) unique key, as the
query ... .first() in the service. -/
def findPrediction (db : List MatchPredictionRow) (sid tid : ℕ) : Option MatchPredictionRow :=
  db.find? (fun r => r.student_id == sid && r.tutor_id == tid)

/-- Error text standing for the unique-constraint IntegrityError raised by
the store on a duplicate (student_id, tutor_id) insert. -/
def uniqueViolationMsg : String :=
  "IntegrityError: duplicate key violates unique constraint uq_match_predictions_student_tutor"

/-- Insert honouring the unique constraint on (student_id, tutor_id)
declared in MatchPrediction.__table_args__. -/
def insertWithUniqueKey (db : List MatchPredictionRow) (row : MatchPredictionRow) :
    Except String (List MatchPredictionRow) :=
  if db.any (fun r => r.student_id == row.student_id && r.tutor_id == row.tutor_id) then
    .error uniqueViolationMsg
  else .ok (db ++ [row])

/-- Replace the first element satisfying the predicate (a commit of an
in-place mutation of the row object the query returned). -/
def updateFirst (p : α → Bool) (f : α → α) : List α → List α
  | [] => []
  | x :: xs => if p x then f x :: xs else x :: updateFirst p f xs

/-- app/services/match_prediction_service.py, get_or_create_match_prediction,
with the state of the store passed explicitly at each of its two store
accesses: dbAtLookup is what the existence query sees, dbAtWrite is what the
final commit sees. In a sequential run the two coincide (see
get_or_create_match_prediction below); in a duplicate-insert race the winner
commits between them, so the loser sees dbAtLookup without the row and
dbAtWrite with it. The function body follows the source statement for
statement; the source installs no handler around the insert, so a
unique-constraint failure propagates. -/
def get_or_create_match_prediction_steps (load : Except LoadFailure ModelBundle)
    (dbAtLookup dbAtWrite : List MatchPredictionRow)
    (student : Student) (tutor : Tutor) (tutor_stats : Option TutorStats)
    (force_refresh : Bool) :
    Except String (MatchPredictionRow × List MatchPredictionRow) :=
  let existing := findPrediction dbAtLookup student.id tutor.id
  let prediction_data := predict_match load student tutor tutor_stats
  match existing with
  | some row =>
    if force_refresh then
      let updated : MatchPredictionRow := { row with
        churn_probability := prediction_data.churn_probability,
        risk_level := prediction_data.risk_level,
        compatibility_score := prediction_data.compatibility_score,
        pace_mismatch := prediction_data.mismatch_scores.pace_mismatch,
        style_mismatch := prediction_data.mismatch_scores.style_mismatch,
        communication_mismatch := prediction_data.mismatch_scores.communication_mismatch,
        age_difference := ⌊prediction_data.mismatch_scores.age_difference⌋,
        ai_explanation := none }
      .ok (updated,
        updateFirst (fun r => r.student_id == student.id && r.tutor_id == tutor.id)
          (fun _ => updated) dbAtWrite)
    else
      .ok (row, dbAtWrite)
  | none =>
    let newRow : MatchPredictionRow := {
      student_id := student.id,
      tutor_id := tutor.id,
      churn_probability := prediction_data.churn_probability,
      risk_level := prediction_data.risk_level,
      compatibility_score := prediction_data.compatibility_score,
      pace_mismatch := prediction_data.mismatch_scores.pace_mismatch,
      style_mismatch := prediction_data.mismatch_scores.style_mismatch,
      communication_mismatch := prediction_data.mismatch_scores.communication_mismatch,
      age_difference := ⌊prediction_data.mismatch_scores.age_difference⌋,
      ai_explanation := none,
      model_version := some "v1.0" }
    (insertWithUniqueKey dbAtWrite newRow).map (fun db2 => (newRow, db2))

/-- Sequential execution of get_or_create_match_prediction: both store
accesses see the same state. -/
def get_or_create_match_prediction (load : Except LoadFailure ModelBundle)
    (db : List MatchPredictionRow) (student : Student) (tutor : Tutor)
    (tutor_stats : Option TutorStats) (force_refresh : Bool) :
    Except String (MatchPredictionRow × List MatchPredictionRow) :=
  get_or_create_match_prediction_steps load db db student tutor tutor_stats force_refresh

/-- A session row (app/models/session.py); times are integers (seconds). -/
structure SessionRec where
  id : ℕ
  tutor_id : ℕ
  scheduled_time : ℤ
  status : String
deriving DecidableEq

/-- A reschedule row (app/models/reschedule.py); session_id carries a unique
constraint in the schema. -/
structure RescheduleRec where
  id : ℕ
  session_id : ℕ
  initiator : String
deriving DecidableEq

/-- The session / reschedule store plus the current clock value, the inputs
of the rate calculator. -/
structure ScheduleDB where
  sessions : List SessionRec
  reschedules : List RescheduleRec
  now : ℤ
deriving DecidableEq

/-- Half-even integer rounding, the behaviour of Python round(). -/
def roundHalfEven (x : ℚ) : ℤ :=
  let f := ⌊x⌋
  let frac := x - (f : ℚ)
  if frac < 1/2 then f
  else if 1/2 < frac then f + 1
  else if f % 2 = 0 then f else f + 1

/-- Python round(x, 2). -/
def round2 (x : ℚ) : ℚ := (roundHalfEven (x * 100) : ℚ) / 100

/-- The filter shared by both store queries of the calculator: the tutor
matches and scheduled_time >= start_date. -/
def sessionInWindow (tutor_id : ℕ) (start_date : ℤ) (s : SessionRec) : Bool :=
  s.tutor_id == tutor_id && decide (start_date ≤ s.scheduled_time)

/-- app/services/reschedule_calculator.py, calculate_reschedule_rate. The
tutor-reschedule count is the SQL join of reschedules (initiator tutor)
against sessions on session_id, restricted to the window; the join is
modelled as the pair count, one term per reschedule row. A day is 86400
seconds. -/
def calculate_reschedule_rate (db : ScheduleDB) (tutor_id : ℕ) (days : ℤ) : ℚ :=
  let start_date := db.now - days * 86400
  let total_sessions := db.sessions.countP (sessionInWindow tutor_id start_date)
  if total_sessions = 0 then 0
  else
    let tutor_reschedules :=
      ((db.reschedules.filter (fun r => r.initiator == "tutor")).map
        (fun r => db.sessions.countP
          (fun s => s.id == r.session_id && sessionInWindow tutor_id start_date s))).sum
    round2 ((tutor_reschedules : ℚ) / (total_sessions : ℚ) * 100)

/-- app/services/reschedule_calculator.py, get_session_counts: the same two
counts, returned as a pair. -/
def get_session_counts (db : ScheduleDB) (tutor_id : ℕ) (days : ℤ) : ℕ × ℕ :=
  let start_date := db.now - days * 86400
  ( db.sessions.countP (sessionInWindow tutor_id start_date),
    ((db.reschedules.filter (fun r => r.initiator == "tutor")).map
      (fun r => db.sessions.countP
        (fun s => s.id == r.session_id && sessionInWindow tutor_id start_date s))).sum )

/-- Modelled from the spec (claim formula for the tutor-reschedule count):
the number of sessions in the window that have status rescheduled and a
reschedule record with initiator tutor. The source counts via the join
instead; the two are compared in the C4 theorem. -/
def spec_tutor_reschedules (db : ScheduleDB) (tutor_id : ℕ) (start_date : ℤ) : ℕ :=
  db.sessions.countP (fun s =>
    sessionInWindow tutor_id start_date s && s.status == "rescheduled" &&
      db.reschedules.any (fun r => r.session_id == s.id && r.initiator == "tutor"))

/-- A TutorScore row (app/models/tutor_score.py). -/
structure TutorScore where
  tutor_id : ℕ
  reschedule_rate_7d : Option ℚ
  reschedule_rate_30d : Option ℚ
  reschedule_rate_90d : Option ℚ
  total_sessions_7d : ℕ
  total_sessions_30d : ℕ
  total_sessions_90d : ℕ
  tutor_reschedules_7d : ℕ
  tutor_reschedules_30d : ℕ
  tutor_reschedules_90d : ℕ
  is_high_risk : Bool
  risk_threshold : ℚ
  last_calculated_at : ℤ
deriving DecidableEq

/-- app/models/tutor_score.py, TutorScore.check_risk_flag: missing rates
count as 0 and the flag is any rate strictly above the stored threshold. -/
def TutorScore.check_risk_flag (ts : TutorScore) : TutorScore :=
  let rates := [ts.reschedule_rate_7d.getD 0, ts.reschedule_rate_30d.getD 0,
                ts.reschedule_rate_90d.getD 0]
  { ts with is_high_risk := rates.any (fun rate => decide (ts.risk_threshold < rate)) }

/-- app/models/tutor_score.py, TutorScore.update_rates: overwrite every rate
and count, stamp the clock, then recompute the risk flag. -/
def TutorScore.update_rates (ts : TutorScore)
    (rates_7d rates_30d rates_90d : Option ℚ)
    (counts_7d counts_30d counts_90d : ℕ)
    (reschedules_7d reschedules_30d reschedules_90d : ℕ) (now : ℤ) : TutorScore :=
  TutorScore.check_risk_flag { ts with
    reschedule_rate_7d := rates_7d,
    reschedule_rate_30d := rates_30d,
    reschedule_rate_90d := rates_90d,
    total_sessions_7d := counts_7d,
    total_sessions_30d := counts_30d,
    total_sessions_90d := counts_90d,
    tutor_reschedules_7d := reschedules_7d,
    tutor_reschedules_30d := reschedules_30d,
    tutor_reschedules_90d := reschedules_90d,
    last_calculated_at := now }

/-- The store slice touched by the score service. -/
structure ScoreDB where
  tutors : List ℕ
  scores : List TutorScore
  schedule : ScheduleDB
deriving DecidableEq

/-- app/services/score_service.py, update_scores_for_tutor: verify the tutor
exists, compute the three window rates and counts, upsert the TutorScore row
(create with the given threshold if absent, else overwrite in place via
update_rates, which keeps the stored threshold), and commit. -/
def update_scores_for_tutor (db : ScoreDB) (tutor_id : ℕ) (risk_threshold : ℚ) :
    Except String (TutorScore × ScoreDB) :=
  if db.tutors.contains tutor_id = false then
    .error "Tutor not found"
  else
    let rate_7d := calculate_reschedule_rate db.schedule tutor_id 7
    let rate_30d := calculate_reschedule_rate db.schedule tutor_id 30
    let rate_90d := calculate_reschedule_rate db.schedule tutor_id 90
    let counts_7d := get_session_counts db.schedule tutor_id 7
    let counts_30d := get_session_counts db.schedule tutor_id 30
    let counts_90d := get_session_counts db.schedule tutor_id 90
    match db.scores.find? (fun ts => ts.tutor_id == tutor_id) with
    | some ts0 =>
      let ts1 := ts0.update_rates (some rate_7d) (some rate_30d) (some rate_90d)
        counts_7d.1 counts_30d.1 counts_90d.1
        counts_7d.2 counts_30d.2 counts_90d.2 db.schedule.now
      .ok (ts1, { db with
        scores := updateFirst (fun ts => ts.tutor_id == tutor_id) (fun _ => ts1) db.scores })
    | none =>
      let ts0 : TutorScore := {
        tutor_id := tutor_id,
        reschedule_rate_7d := none, reschedule_rate_30d := none, reschedule_rate_90d := none,
        total_sessions_7d := 0, total_sessions_30d := 0, total_sessions_90d := 0,
        tutor_reschedules_7d := 0, tutor_reschedules_30d := 0, tutor_reschedules_90d := 0,
        is_high_risk := false, risk_threshold := risk_threshold, last_calculated_at := 0 }
      let ts1 := ts0.update_rates (some rate_7d) (some rate_30d) (some rate_90d)
        counts_7d.1 counts_30d.1 counts_90d.1
        counts_7d.2 counts_30d.2 counts_90d.2 db.schedule.now
      .ok (ts1, { db with scores := db.scores ++ [ts1] })

/-- The per-pair data the cost-matrix builder draws from the prediction
store: build_cost_matrix obtains (via get_or_create_match_prediction) one
MatchPrediction per (student, tutor) cell and uses its churn probability as
the cost; the matches report also reads the compatibility score. -/
structure PredInfo where
  churn_probability : ℚ
  compatibility_score : ℚ
deriving DecidableEq

/-- Total cost of an assignment: the assignment maps row index i to column
p[i], and the cost of the matching is the sum of cost i p[i]. -/
def permCost (cost : ℕ → ℕ → ℚ) (p : List ℕ) : ℚ :=
  (p.enum.map (fun ij => cost ij.1 ij.2)).sum

/-- First element of the list minimizing f (ties keep the earlier element,
so the choice is deterministic for a given list). -/
def selectMinBy (f : α → ℚ) : List α → Option α
  | [] => none
  | x :: xs => some (xs.foldl (fun best y => if f y < f best then y else best) x)

/-- Modelled from the spec: scipy.optimize.linear_sum_assignment is an
external library function not part of this repository; the spec requires a
solver of the classical assignment problem returning a provably optimal
permutation with deterministic tie-breaking. Modelled as the exact minimum
over all permutations of the row set. -/
def linear_sum_assignment (n : ℕ) (cost : ℕ → ℕ → ℚ) : List ℕ :=
  (selectMinBy (permCost cost) (List.range n).permutations).getD (List.range n)

/-- One entry of the matches list emitted by run_optimal_matching (the
fields used by the aggregate report). -/
structure MatchRow where
  student_id : ℕ
  tutor_id : ℕ
  churn_probability : ℚ
  compatibility_score : ℚ
deriving DecidableEq

/-- The result dictionary of run_optimal_matching. The assignment field
records the column chosen for each row (the zip of the solver output from
which the matches are built). -/
structure MatchingOutcome where
  assignment : List ℕ
  matches_list : List MatchRow
  total_churn_risk : ℚ
  avg_churn_risk : ℚ
  total_compatibility : ℚ
  avg_compatibility : ℚ
deriving DecidableEq

/-- app/services/matching_algorithm_service.py, run_optimal_matching. The
prediction store work of build_cost_matrix is abstracted by the oracle
pred: cell (i, j) of the cost matrix is the churn probability of the pair
(student_ids[i], tutor_ids[j]). Validation happens before the oracle is
ever consulted, mirroring the source order. -/
def run_optimal_matching (pred : ℕ → ℕ → PredInfo)
    (student_ids tutor_ids : List ℕ) : Except String MatchingOutcome :=
  if student_ids.length ≠ tutor_ids.length then
    .error "Student and tutor lists must be equal length."
  else if student_ids.length < 2 then
    .error "At least 2 students and tutors are required for matching."
  else
    let n := student_ids.length
    let cost : ℕ → ℕ → ℚ := fun i j =>
      (pred (student_ids.getD i 0) (tutor_ids.getD j 0)).churn_probability
    let assignment := linear_sum_assignment n cost
    let matches_list := assignment.enum.map (fun ij =>
      let sid := student_ids.getD ij.1 0
      let tid := tutor_ids.getD ij.2 0
      let p := pred sid tid
      MatchRow.mk sid tid p.churn_probability p.compatibility_score)
    let total_churn_risk := (matches_list.map (fun m => m.churn_probability)).sum
    let total_compatibility := (matches_list.map (fun m => m.compatibility_score)).sum
    .ok {
      assignment := assignment,
      matches_list := matches_list,
      total_churn_risk := total_churn_risk,
      avg_churn_risk := if matches_list.length > 0 then total_churn_risk / matches_list.length else 0,
      total_compatibility := total_compatibility,
      avg_compatibility := if matches_list.length > 0 then total_compatibility / matches_list.length else 0 }

/-- Unfolding of calculate_compatibility_score as one closed formula. -/
lemma calculate_compatibility_score_def (m : MismatchScores) :
    calculate_compatibility_score m =
      max 0 (min 1 (1 -
        (3/10 * min (m.pace_mismatch / 4) 1 + 3/10 * m.style_mismatch
          + 2/10 * min (m.communication_mismatch / 4) 1
          + 2/10 * min (m.age_difference / 20) 1))) := rfl

/-- C2: for every student and tutor profile, including profiles with any
optional attribute missing, the compatibility score of the mismatch scores
is a total computation with value in the closed interval [0, 1], and every
missing-data branch substitutes its explicit numeric default: pace 2.5,
style 0.5, communication 2.5, age 10. -/
theorem compatibility_of_mismatch_total_in_unit_interval (s : Student) (t : Tutor) :
    (0 ≤ calculate_compatibility_score (calculate_mismatch_scores s t) ∧
      calculate_compatibility_score (calculate_mismatch_scores s t) ≤ 1) ∧
    ((s.preferred_pace = none ∨ t.preferred_pace = none) →
      (calculate_mismatch_scores s t).pace_mismatch = 5/2) ∧
    ((pyTruthyStr s.preferred_teaching_style = false ∨ pyTruthyStr t.teaching_style = false) →
      (calculate_mismatch_scores s t).style_mismatch = 1/2) ∧
    ((s.communication_style_preference = none ∨ t.communication_style = none) →
      (calculate_mismatch_scores s t).communication_mismatch = 5/2) ∧
    ((s.age = none ∨ t.age = none) →
      (calculate_mismatch_scores s t).age_difference = 10) := by
  refine ⟨⟨?_, ?_⟩, ?_, ?_, ?_, ?_⟩
  · rw [calculate_compatibility_score_def]; exact le_max_left _ _
  · rw [calculate_compatibility_score_def]
    exact max_le (by norm_num) (min_le_left _ _)
  · rintro (h | h)
    · simp [calculate_mismatch_scores, h]
    · cases hs : s.preferred_pace <;> simp [calculate_mismatch_scores, h, hs]
  · rintro (h | h) <;> simp [calculate_mismatch_scores, h]
  · rintro (h | h)
    · simp [calculate_mismatch_scores, h]
    · cases hs : s.communication_style_preference <;> simp [calculate_mismatch_scores, h, hs]
  · rintro (h | h)
    · simp [calculate_mismatch_scores, h]
    · cases hs : s.age <;> simp [calculate_mismatch_scores, h, hs]

/-- A student with every optional attribute absent. -/
def blankStudent : Student :=
  { id := 1, age := none, preferred_pace := none, preferred_teaching_style := none,
    communication_style_preference := none, urgency_level := none,
    previous_tutoring_experience := none, previous_satisfaction := none }

/-- A tutor with every optional attribute absent. -/
def blankTutor : Tutor :=
  { id := 2, age := none, experience_years := none, teaching_style := none,
    preferred_pace := none, communication_style := none, confidence_level := none }

/-- Witness for C2 at a concrete fully-missing profile pair. -/
theorem compatibility_of_mismatch_total_in_unit_interval_witness :
    (0 ≤ calculate_compatibility_score (calculate_mismatch_scores blankStudent blankTutor) ∧
      calculate_compatibility_score (calculate_mismatch_scores blankStudent blankTutor) ≤ 1) ∧
    ((blankStudent.preferred_pace = none ∨ blankTutor.preferred_pace = none) →
      (calculate_mismatch_scores blankStudent blankTutor).pace_mismatch = 5/2) ∧
    ((pyTruthyStr blankStudent.preferred_teaching_style = false ∨
        pyTruthyStr blankTutor.teaching_style = false) →
      (calculate_mismatch_scores blankStudent blankTutor).style_mismatch = 1/2) ∧
    ((blankStudent.communication_style_preference = none ∨
        blankTutor.communication_style = none) →
      (calculate_mismatch_scores blankStudent blankTutor).communication_mismatch = 5/2) ∧
    ((blankStudent.age = none ∨ blankTutor.age = none) →
      (calculate_mismatch_scores blankStudent blankTutor).age_difference = 10) :=
  compatibility_of_mismatch_total_in_unit_interval blankStudent blankTutor

/-- C7: whenever the classifier artifact is unavailable (either load
failure), predict_churn_risk returns exactly 1 minus the compatibility score
of the mismatch scores of the pair; being a total function of its inputs it
raises nothing. -/
theorem predict_churn_risk_fallback (e : LoadFailure) (s : Student) (t : Tutor)
    (stats : Option TutorStats) :
    predict_churn_risk (.error e) s t stats =
      1 - calculate_compatibility_score (calculate_mismatch_scores s t) := rfl

/-- C10: calculate_compatibility_score is monotonically non-increasing in
every mismatch component: with non-negative entries, raising any component
can only lower (or keep) the score. -/
theorem compatibility_score_antitone (m m' : MismatchScores)
    (hp0 : 0 ≤ m.pace_mismatch) (hs0 : 0 ≤ m.style_mismatch)
    (hc0 : 0 ≤ m.communication_mismatch) (ha0 : 0 ≤ m.age_difference)
    (hp : m.pace_mismatch ≤ m'.pace_mismatch)
    (hs : m.style_mismatch ≤ m'.style_mismatch)
    (hc : m.communication_mismatch ≤ m'.communication_mismatch)
    (ha : m.age_difference ≤ m'.age_difference) :
    calculate_compatibility_score m' ≤ calculate_compatibility_score m := by
  rw [calculate_compatibility_score_def, calculate_compatibility_score_def]
  apply max_le_max le_rfl
  apply min_le_min le_rfl
  apply sub_le_sub_left
  have h1 : min (m.pace_mismatch / 4) 1 ≤ min (m'.pace_mismatch / 4) 1 := by gcongr
  have h2 : min (m.communication_mismatch / 4) 1 ≤ min (m'.communication_mismatch / 4) 1 := by
    gcongr
  have h3 : min (m.age_difference / 20) 1 ≤ min (m'.age_difference / 20) 1 := by gcongr
  linarith

/-- Witness for C10 at concrete mismatch values. -/
theorem compatibility_score_antitone_witness :
    (0 ≤ (MismatchScores.mk 0 0 0 0).pace_mismatch ∧
      (MismatchScores.mk 0 0 0 0).pace_mismatch ≤ (MismatchScores.mk 1 1 1 1).pace_mismatch) ∧
    calculate_compatibility_score (MismatchScores.mk 1 1 1 1) ≤
      calculate_compatibility_score (MismatchScores.mk 0 0 0 0) :=
  ⟨⟨le_rfl, by norm_num⟩,
    compatibility_score_antitone (MismatchScores.mk 0 0 0 0) (MismatchScores.mk 1 1 1 1)
      le_rfl le_rfl le_rfl le_rfl (by norm_num) (by norm_num) (by norm_num) (by norm_num)⟩


/-- The running fold inside selectMinBy returns the accumulator or a list
element, and its value of f is minimal among both. -/
lemma foldlMin_spec (f : α → ℚ) (xs : List α) :
    ∀ acc : α,
      (xs.foldl (fun best y => if f y < f best then y else best) acc = acc ∨
        xs.foldl (fun best y => if f y < f best then y else best) acc ∈ xs) ∧
      f (xs.foldl (fun best y => if f y < f best then y else best) acc) ≤ f acc ∧
      ∀ b ∈ xs, f (xs.foldl (fun best y => if f y < f best then y else best) acc) ≤ f b := by
  induction xs with
  | nil =>
    intro acc
    exact ⟨Or.inl rfl, le_rfl, by intro b hb; cases hb⟩
  | cons y ys ih =>
    intro acc
    rw [List.foldl_cons]
    obtain ⟨hmem, hle, hall⟩ := ih (if f y < f acc then y else acc)
    have hacc : f (if f y < f acc then y else acc) ≤ f acc := by
      split
      · exact le_of_lt (by assumption)
      · exact le_rfl
    have hy : f (if f y < f acc then y else acc) ≤ f y := by
      split
      · exact le_rfl
      · exact le_of_not_lt (by assumption)
    refine ⟨?_, le_trans hle hacc, ?_⟩
    · rcases hmem with h | h
      · rw [h]
        split
        · exact Or.inr (List.mem_cons_self _ _)
        · exact Or.inl rfl
      · exact Or.inr (List.mem_cons_of_mem _ h)
    · intro b hb
      rcases List.mem_cons.mp hb with rfl | hb
      · exact le_trans hle hy
      · exact hall b hb

/-- selectMinBy returns a member whose f-value is minimal on the list. -/
lemma selectMinBy_spec (f : α → ℚ) (l : List α) (a : α)
    (h : selectMinBy f l = some a) : a ∈ l ∧ ∀ b ∈ l, f a ≤ f b := by
  cases l with
  | nil => cases h
  | cons x xs =>
    simp only [selectMinBy, Option.some.injEq] at h
    subst h
    obtain ⟨hmem, hle, hall⟩ := foldlMin_spec f xs x
    constructor
    · rcases hmem with h | h
      · rw [h]; exact List.mem_cons_self _ _
      · exact List.mem_cons_of_mem _ h
    · intro b hb
      rcases List.mem_cons.mp hb with rfl | hb
      · exact hle
      · exact hall b hb

/-- Every list occurs among its own permutations. -/
lemma mem_self_permutations (l : List α) : l ∈ l.permutations :=
  List.mem_permutations.mpr (List.Perm.refl l)

/-- The modelled solver returns a permutation of the row indices of
globally minimal total cost, with a deterministic choice. -/
lemma linear_sum_assignment_spec (n : ℕ) (cost : ℕ → ℕ → ℚ) :
    List.Perm (linear_sum_assignment n cost) (List.range n) ∧
    ∀ q, List.Perm q (List.range n) →
      permCost cost (linear_sum_assignment n cost) ≤ permCost cost q := by
  unfold linear_sum_assignment
  cases h : selectMinBy (permCost cost) (List.range n).permutations with
  | none =>
    exfalso
    cases hp : (List.range n).permutations with
    | nil =>
      have := mem_self_permutations (List.range n)
      rw [hp] at this
      cases this
    | cons x xs =>
      rw [hp] at h
      simp [selectMinBy] at h
  | some p =>
    simp only [Option.getD]
    obtain ⟨hmem, hminOn⟩ := selectMinBy_spec _ _ _ h
    exact ⟨List.mem_permutations.mp hmem,
      fun q hq => hminOn q (List.mem_permutations.mpr hq)⟩

/-- C1: for every cost matrix the solver sees (every prediction oracle and
every pair of valid equal-length candidate lists), run_optimal_matching
returns an assignment that is a permutation of the n row indices, whose
total cost, the sum of the churn probabilities of the matched pairs, is
less than or equal to the total cost of every other permutation, and the
reported total_churn_risk is exactly that total cost. -/
theorem run_optimal_matching_globally_optimal (pred : ℕ → ℕ → PredInfo)
    (student_ids tutor_ids : List ℕ)
    (hlen : student_ids.length = tutor_ids.length)
    (htwo : 2 ≤ student_ids.length) :
    ∃ res, run_optimal_matching pred student_ids tutor_ids = Except.ok res ∧
      List.Perm res.assignment (List.range student_ids.length) ∧
      (∀ q, List.Perm q (List.range student_ids.length) →
        permCost
            (fun i j => (pred (student_ids.getD i 0) (tutor_ids.getD j 0)).churn_probability)
            res.assignment ≤
          permCost
            (fun i j => (pred (student_ids.getD i 0) (tutor_ids.getD j 0)).churn_probability)
            q) ∧
      res.total_churn_risk =
        permCost
          (fun i j => (pred (student_ids.getD i 0) (tutor_ids.getD j 0)).churn_probability)
          res.assignment := by
  have hne : ¬ student_ids.length ≠ tutor_ids.length := by simp [hlen]
  have hlt : ¬ student_ids.length < 2 := not_lt.mpr htwo
  obtain ⟨hperm, hopt⟩ := linear_sum_assignment_spec student_ids.length
    (fun i j => (pred (student_ids.getD i 0) (tutor_ids.getD j 0)).churn_probability)
  have hrun : run_optimal_matching pred student_ids tutor_ids = Except.ok
      { assignment := linear_sum_assignment student_ids.length
          (fun i j => (pred (student_ids.getD i 0) (tutor_ids.getD j 0)).churn_probability),
        matches_list := (linear_sum_assignment student_ids.length
          (fun i j => (pred (student_ids.getD i 0) (tutor_ids.getD j 0)).churn_probability)).enum.map
            (fun ij => MatchRow.mk (student_ids.getD ij.1 0) (tutor_ids.getD ij.2 0)
              (pred (student_ids.getD ij.1 0) (tutor_ids.getD ij.2 0)).churn_probability
              (pred (student_ids.getD ij.1 0) (tutor_ids.getD ij.2 0)).compatibility_score),
        total_churn_risk := (((linear_sum_assignment student_ids.length
          (fun i j => (pred (student_ids.getD i 0) (tutor_ids.getD j 0)).churn_probability)).enum.map
            (fun ij => MatchRow.mk (student_ids.getD ij.1 0) (tutor_ids.getD ij.2 0)
              (pred (student_ids.getD ij.1 0) (tutor_ids.getD ij.2 0)).churn_probability
              (pred (student_ids.getD ij.1 0) (tutor_ids.getD ij.2 0)).compatibility_score)).map
                (fun m => m.churn_probability)).sum,
        avg_churn_risk := if ((linear_sum_assignment student_ids.length
          (fun i j => (pred (student_ids.getD i 0) (tutor_ids.getD j 0)).churn_probability)).enum.map
            (fun ij => MatchRow.mk (student_ids.getD ij.1 0) (tutor_ids.getD ij.2 0)
              (pred (student_ids.getD ij.1 0) (tutor_ids.getD ij.2 0)).churn_probability
              (pred (student_ids.getD ij.1 0) (tutor_ids.getD ij.2 0)).compatibility_score)).length > 0
          then (((linear_sum_assignment student_ids.length
            (fun i j => (pred (student_ids.getD i 0) (tutor_ids.getD j 0)).churn_probability)).enum.map
              (fun ij => MatchRow.mk (student_ids.getD ij.1 0) (tutor_ids.getD ij.2 0)
                (pred (student_ids.getD ij.1 0) (tutor_ids.getD ij.2 0)).churn_probability
                (pred (student_ids.getD ij.1 0) (tutor_ids.getD ij.2 0)).compatibility_score)).map
                  (fun m => m.churn_probability)).sum /
            (((linear_sum_assignment student_ids.length
              (fun i j => (pred (student_ids.getD i 0) (tutor_ids.getD j 0)).churn_probability)).enum.map
                (fun ij => MatchRow.mk (student_ids.getD ij.1 0) (tutor_ids.getD ij.2 0)
                  (pred (student_ids.getD ij.1 0) (tutor_ids.getD ij.2 0)).churn_probability
                  (pred (student_ids.getD ij.1 0) (tutor_ids.getD ij.2 0)).compatibility_score)).length : ℚ)
          else 0,
        total_compatibility := (((linear_sum_assignment student_ids.length
          (fun i j => (pred (student_ids.getD i 0) (tutor_ids.getD j 0)).churn_probability)).enum.map
            (fun ij => MatchRow.mk (student_ids.getD ij.1 0) (tutor_ids.getD ij.2 0)
              (pred (student_ids.getD ij.1 0) (tutor_ids.getD ij.2 0)).churn_probability
              (pred (student_ids.getD ij.1 0) (tutor_ids.getD ij.2 0)).compatibility_score)).map
                (fun m => m.compatibility_score)).sum,
        avg_compatibility := if ((linear_sum_assignment student_ids.length
          (fun i j => (pred (student_ids.getD i 0) (tutor_ids.getD j 0)).churn_probability)).enum.map
            (fun ij => MatchRow.mk (student_ids.getD ij.1 0) (tutor_ids.getD ij.2 0)
              (pred (student_ids.getD ij.1 0) (tutor_ids.getD ij.2 0)).churn_probability
              (pred (student_ids.getD ij.1 0) (tutor_ids.getD ij.2 0)).compatibility_score)).length > 0
          then (((linear_sum_assignment student_ids.length
            (fun i j => (pred (student_ids.getD i 0) (tutor_ids.getD j 0)).churn_probability)).enum.map
              (fun ij => MatchRow.mk (student_ids.getD ij.1 0) (tutor_ids.getD ij.2 0)
                (pred (student_ids.getD ij.1 0) (tutor_ids.getD ij.2 0)).churn_probability
                (pred (student_ids.getD ij.1 0) (tutor_ids.getD ij.2 0)).compatibility_score)).map
                  (fun m => m.compatibility_score)).sum /
            (((linear_sum_assignment student_ids.length
              (fun i j => (pred (student_ids.getD i 0) (tutor_ids.getD j 0)).churn_probability)).enum.map
                (fun ij => MatchRow.mk (student_ids.getD ij.1 0) (tutor_ids.getD ij.2 0)
                  (pred (student_ids.getD ij.1 0) (tutor_ids.getD ij.2 0)).churn_probability
                  (pred (student_ids.getD ij.1 0) (tutor_ids.getD ij.2 0)).compatibility_score)).length : ℚ)
          else 0 } := by
    unfold run_optimal_matching
    rw [if_neg hne, if_neg hlt]
  refine ⟨_, hrun, hperm, hopt, ?_⟩
  simp only [List.map_map]
  rfl

/-- A concrete prediction oracle for exercising the solver. -/
def demoPred : ℕ → ℕ → PredInfo :=
  fun s t => { churn_probability := ((s + t : ℕ) : ℚ) / 100, compatibility_score := 1/2 }

/-- Witness for C1 at a concrete 2-by-2 instance. -/
theorem run_optimal_matching_globally_optimal_witness :
    ([10, 11] : List ℕ).length = ([20, 21] : List ℕ).length ∧
    2 ≤ ([10, 11] : List ℕ).length ∧
    (∃ res, run_optimal_matching demoPred [10, 11] [20, 21] = Except.ok res ∧
      List.Perm res.assignment (List.range ([10, 11] : List ℕ).length) ∧
      (∀ q, List.Perm q (List.range ([10, 11] : List ℕ).length) →
        permCost
            (fun i j => (demoPred (([10, 11] : List ℕ).getD i 0)
              (([20, 21] : List ℕ).getD j 0)).churn_probability)
            res.assignment ≤
          permCost
            (fun i j => (demoPred (([10, 11] : List ℕ).getD i 0)
              (([20, 21] : List ℕ).getD j 0)).churn_probability)
            q) ∧
      res.total_churn_risk =
        permCost
          (fun i j => (demoPred (([10, 11] : List ℕ).getD i 0)
            (([20, 21] : List ℕ).getD j 0)).churn_probability)
          res.assignment) :=
  ⟨rfl, by decide,
    run_optimal_matching_globally_optimal demoPred [10, 11] [20, 21] rfl (by decide)⟩

/-- C6 (amended): malformed input with unequal list lengths or fewer than 2
entries per side is rejected by run_optimal_matching with a validation
error, and the error is the same for every prediction oracle, so it is
raised before any cost-matrix work or store access. Duplicate ids, however,
are not validated (see the counterexample). -/
theorem run_optimal_matching_validation_first (student_ids tutor_ids : List ℕ)
    (h : student_ids.length ≠ tutor_ids.length ∨ student_ids.length < 2) :
    ∃ msg, ∀ pred : ℕ → ℕ → PredInfo,
      run_optimal_matching pred student_ids tutor_ids = Except.error msg := by
  by_cases hlen : student_ids.length ≠ tutor_ids.length
  · refine ⟨"Student and tutor lists must be equal length.", fun pred => ?_⟩
    unfold run_optimal_matching
    rw [if_pos hlen]
  · have hlt : student_ids.length < 2 := by tauto
    refine ⟨"At least 2 students and tutors are required for matching.", fun pred => ?_⟩
    unfold run_optimal_matching
    rw [if_neg hlen, if_pos hlt]

/-- Witness for C6 at a concrete undersized and unequal input. -/
theorem run_optimal_matching_validation_first_witness :
    (([0] : List ℕ).length ≠ ([1, 2] : List ℕ).length ∨ ([0] : List ℕ).length < 2) ∧
    (∃ msg, ∀ pred : ℕ → ℕ → PredInfo,
      run_optimal_matching pred [0] [1, 2] = Except.error msg) :=
  ⟨by decide, run_optimal_matching_validation_first [0] [1, 2] (by decide)⟩

/-- C6 counterexample: duplicate ids are not rejected. With the duplicate
student list [7, 7] (equal lengths, two per side) the call does not report
a validation error: it proceeds through cost-matrix work and returns ok. -/
theorem run_optimal_matching_duplicate_ids_not_rejected :
    ∃ res, run_optimal_matching demoPred [7, 7] [8, 9] = Except.ok res :=
  ⟨_, rfl⟩

/-- Replacing the first matching element never changes the row count. -/
lemma updateFirst_length (p : α → Bool) (f : α → α) (l : List α) :
    (updateFirst p f l).length = l.length := by
  induction l with
  | nil => rfl
  | cons x xs ih =>
    unfold updateFirst
    split
    · simp
    · simp [ih]

/-- If the predicate finds a row, the constant replacement is a member of
the updated list. -/
lemma mem_updateFirst_const (p : α → Bool) (c : α) (l : List α) (x : α)
    (h : l.find? p = some x) : c ∈ updateFirst p (fun _ => c) l := by
  induction l with
  | nil => cases h
  | cons y ys ih =>
    by_cases hp : p y
    · unfold updateFirst
      rw [if_pos hp]
      exact List.mem_cons_self _ _
    · unfold updateFirst
      rw [if_neg hp]
      rw [List.find?_cons_of_neg _ hp] at h
      exact List.mem_cons_of_mem _ (ih h)

/-- A list whose find? is empty has no element satisfying the predicate. -/
lemma any_eq_false_of_find?_eq_none {p : α → Bool} {l : List α}
    (h : l.find? p = none) : l.any p = false := by
  rw [List.find?_eq_none] at h
  rw [List.any_eq_false]
  exact h

/-- find? skips a prefix in which it finds nothing. -/
lemma find?_append_of_none {p : α → Bool} {l1 l2 : List α}
    (h : l1.find? p = none) : (l1 ++ l2).find? p = l2.find? p := by
  induction l1 with
  | nil => rfl
  | cons x xs ih =>
    by_cases hp : p x
    · rw [List.find?_cons_of_pos _ hp] at h
      cases h
    · rw [List.find?_cons_of_neg _ hp] at h
      rw [List.cons_append, List.find?_cons_of_neg _ hp]
      exact ih h

/-- C5 (amended): when get_or_create_match_prediction loses a
duplicate-insert race on the unique (student_id, tutor_id) key — its
existence check ran against a store without the row while the winner
committed the row before its insert — the unique-constraint conflict is NOT
caught inside the operation: the source wraps no handler around the insert,
so the error propagates to the caller instead of being converted into a
read of the winner row. -/
theorem get_or_create_race_conflict_error (load : Except LoadFailure ModelBundle)
    (dbAtLookup dbAtWrite : List MatchPredictionRow) (s : Student) (t : Tutor)
    (stats : Option TutorStats) (force_refresh : Bool)
    (hmiss : findPrediction dbAtLookup s.id t.id = none)
    (hwinner : dbAtWrite.any
      (fun r => r.student_id == s.id && r.tutor_id == t.id) = true) :
    get_or_create_match_prediction_steps load dbAtLookup dbAtWrite s t stats force_refresh =
      Except.error uniqueViolationMsg := by
  unfold get_or_create_match_prediction_steps
  rw [hmiss]
  dsimp only [insertWithUniqueKey]
  rw [if_pos hwinner]
  rfl

/-- The row the race winner committed for the pair (student 1, tutor 2). -/
def winnerRow : MatchPredictionRow :=
  { student_id := 1, tutor_id := 2, churn_probability := 1, risk_level := "high",
    compatibility_score := 0, pace_mismatch := 4, style_mismatch := 1,
    communication_mismatch := 4, age_difference := 30, ai_explanation := none,
    model_version := some "v1.0" }

/-- Concrete student (id 1) used in the store scenarios. -/
def cexStudent : Student :=
  { id := 1, age := some 15, preferred_pace := some 5,
    preferred_teaching_style := some "flexible",
    communication_style_preference := some 5, urgency_level := some 3,
    previous_tutoring_experience := some 0, previous_satisfaction := some 3 }

/-- Concrete tutor (id 2) used in the store scenarios. -/
def cexTutor : Tutor :=
  { id := 2, age := some 45, experience_years := some 10,
    teaching_style := some "structured", preferred_pace := some 1,
    communication_style := some 1, confidence_level := some 3 }

/-- C5 counterexample: in the concrete raced execution (empty store at the
existence check, winner row present at the insert) the loser ends with the
propagated unique-constraint error; the winner row is not returned and the
conflict is not converted into a read. -/
theorem get_or_create_race_conflict_propagated_cex :
    get_or_create_match_prediction_steps (Except.error LoadFailure.fileNotFound) []
      [winnerRow] cexStudent cexTutor none false = Except.error uniqueViolationMsg := rfl

/-- Witness for C5 (amended) at a concrete raced execution. -/
theorem get_or_create_race_conflict_error_witness :
    (findPrediction [] cexStudent.id cexTutor.id = none ∧
      ([winnerRow].any
        (fun r => r.student_id == cexStudent.id && r.tutor_id == cexTutor.id)) = true) ∧
    get_or_create_match_prediction_steps (Except.error LoadFailure.libsMissing) []
      [winnerRow] cexStudent cexTutor none true = Except.error uniqueViolationMsg :=
  ⟨⟨rfl, rfl⟩,
    get_or_create_race_conflict_error (Except.error LoadFailure.libsMissing) [] [winnerRow]
      cexStudent cexTutor none true rfl rfl⟩

/-- C9: the second of two consecutive get_or_create calls without
force_refresh is an idempotent read: whatever the first call returned
(created or read), the second call — even with a different artifact state or
tutor statistics — returns the identical record and leaves the store exactly
as the first call left it. -/
theorem get_or_create_idempotent_read
    (load load2 : Except LoadFailure ModelBundle) (db : List MatchPredictionRow)
    (s : Student) (t : Tutor) (stats stats2 : Option TutorStats)
    (r1 : MatchPredictionRow) (db1 : List MatchPredictionRow)
    (h1 : get_or_create_match_prediction load db s t stats false = Except.ok (r1, db1)) :
    get_or_create_match_prediction load2 db1 s t stats2 false = Except.ok (r1, db1) := by
  unfold get_or_create_match_prediction get_or_create_match_prediction_steps findPrediction at h1 ⊢
  cases hfind : db.find? (fun r => r.student_id == s.id && r.tutor_id == t.id) with
  | some r =>
    rw [hfind] at h1
    dsimp only at h1
    rw [if_neg Bool.false_ne_true] at h1
    simp only [Except.ok.injEq, Prod.mk.injEq] at h1
    obtain ⟨hr, hdb⟩ := h1
    subst hr
    subst hdb
    rw [hfind]
    rfl
  | none =>
    rw [hfind] at h1
    have hany : (db.any fun r => r.student_id == s.id && r.tutor_id == t.id) = false := by
      rw [List.any_eq_false]
      rw [List.find?_eq_none] at hfind
      exact hfind
    dsimp only [insertWithUniqueKey] at h1
    rw [hany, if_neg Bool.false_ne_true] at h1
    simp only [Except.map, Except.ok.injEq, Prod.mk.injEq] at h1
    obtain ⟨hr, hdb⟩ := h1
    have hfind1 : db1.find? (fun r => r.student_id == s.id && r.tutor_id == t.id)
        = some r1 := by
      rw [← hdb]
      rw [find?_append_of_none hfind]
      rw [List.find?_cons_of_pos]
      · rw [hr]
      · simp
    rw [hfind1]
    rfl

/-- Witness for C9: a concrete create-then-read sequence on an empty store. -/
theorem get_or_create_idempotent_read_witness :
    ∃ r1 db1,
      get_or_create_match_prediction (Except.error LoadFailure.fileNotFound) [] cexStudent
        cexTutor none false = Except.ok (r1, db1) ∧
      get_or_create_match_prediction (Except.error LoadFailure.fileNotFound) db1 cexStudent
        cexTutor none false = Except.ok (r1, db1) :=
  ⟨_, _, rfl,
    get_or_create_idempotent_read (Except.error LoadFailure.fileNotFound)
      (Except.error LoadFailure.fileNotFound) [] cexStudent cexTutor none none _ _ rfl⟩

/-- C8 (amended): calling get_or_create with force_refresh on an existing
row recomputes the derived fields in place — churn probability, risk level,
compatibility score, and the four mismatch scores — sets the cached
explanation to null, persists the updated row in place of the old one (no
new row: the store keeps its length and contains the updated row), and
returns it. The classifier version tag is NOT recomputed: it stays whatever
the stored row carried (see the counterexample). -/
theorem force_refresh_updates_in_place (load : Except LoadFailure ModelBundle)
    (db : List MatchPredictionRow) (s : Student) (t : Tutor)
    (stats : Option TutorStats) (r : MatchPredictionRow)
    (hfound : findPrediction db s.id t.id = some r) :
    ∃ r2 db2,
      get_or_create_match_prediction load db s t stats true = Except.ok (r2, db2) ∧
      r2.churn_probability = (predict_match load s t stats).churn_probability ∧
      r2.risk_level = (predict_match load s t stats).risk_level ∧
      r2.compatibility_score = (predict_match load s t stats).compatibility_score ∧
      r2.pace_mismatch = (predict_match load s t stats).mismatch_scores.pace_mismatch ∧
      r2.style_mismatch = (predict_match load s t stats).mismatch_scores.style_mismatch ∧
      r2.communication_mismatch
        = (predict_match load s t stats).mismatch_scores.communication_mismatch ∧
      r2.age_difference = ⌊(predict_match load s t stats).mismatch_scores.age_difference⌋ ∧
      r2.ai_explanation = none ∧
      r2.model_version = r.model_version ∧
      db2 = updateFirst (fun x => x.student_id == s.id && x.tutor_id == t.id)
        (fun _ => r2) db ∧
      db2.length = db.length ∧
      r2 ∈ db2 := by
  unfold findPrediction at hfound
  unfold get_or_create_match_prediction get_or_create_match_prediction_steps findPrediction
  rw [hfound]
  refine ⟨_, _, rfl, rfl, rfl, rfl, rfl, rfl, rfl, rfl, rfl, rfl, rfl, ?_, ?_⟩
  · exact updateFirst_length _ _ _
  · exact mem_updateFirst_const _ _ _ r hfound

/-- An existing prediction row for the pair (student 1, tutor 2) carrying a
stale classifier version tag and a cached explanation. -/
def staleRow : MatchPredictionRow :=
  { student_id := 1, tutor_id := 2, churn_probability := 1/2, risk_level := "medium",
    compatibility_score := 1/2, pace_mismatch := 2, style_mismatch := 0,
    communication_mismatch := 2, age_difference := 5,
    ai_explanation := some "stale text", model_version := some "v0.9" }

/-- C8 counterexample: force refresh of a row tagged v0.9 returns a row
still tagged v0.9, while the tag the service would compute for a fresh
record is v1.0 — so the classifier version tag is not among the fields
recomputed in place, contradicting the claim as stated. -/
theorem force_refresh_keeps_model_version_cex :
    (get_or_create_match_prediction (Except.error LoadFailure.fileNotFound) [staleRow]
        cexStudent cexTutor none true).toOption.map (fun out => out.1.model_version)
      = some (some "v0.9") ∧
    (some "v0.9" : Option String) ≠ some "v1.0" :=
  ⟨rfl, by decide⟩

/-- Witness for C8 (amended) at a concrete one-row store. -/
theorem force_refresh_updates_in_place_witness :
    findPrediction [staleRow] cexStudent.id cexTutor.id = some staleRow ∧
    (∃ r2 db2,
      get_or_create_match_prediction (Except.error LoadFailure.fileNotFound) [staleRow]
        cexStudent cexTutor none true = Except.ok (r2, db2) ∧
      r2.churn_probability = (predict_match (Except.error LoadFailure.fileNotFound)
        cexStudent cexTutor none).churn_probability ∧
      r2.risk_level = (predict_match (Except.error LoadFailure.fileNotFound)
        cexStudent cexTutor none).risk_level ∧
      r2.compatibility_score = (predict_match (Except.error LoadFailure.fileNotFound)
        cexStudent cexTutor none).compatibility_score ∧
      r2.pace_mismatch = (predict_match (Except.error LoadFailure.fileNotFound)
        cexStudent cexTutor none).mismatch_scores.pace_mismatch ∧
      r2.style_mismatch = (predict_match (Except.error LoadFailure.fileNotFound)
        cexStudent cexTutor none).mismatch_scores.style_mismatch ∧
      r2.communication_mismatch = (predict_match (Except.error LoadFailure.fileNotFound)
        cexStudent cexTutor none).mismatch_scores.communication_mismatch ∧
      r2.age_difference = ⌊(predict_match (Except.error LoadFailure.fileNotFound)
        cexStudent cexTutor none).mismatch_scores.age_difference⌋ ∧
      r2.ai_explanation = none ∧
      r2.model_version = staleRow.model_version ∧
      db2 = updateFirst
        (fun x => x.student_id == cexStudent.id && x.tutor_id == cexTutor.id)
        (fun _ => r2) [staleRow] ∧
      db2.length = ([staleRow] : List MatchPredictionRow).length ∧
      r2 ∈ db2) :=
  ⟨rfl, force_refresh_updates_in_place (Except.error LoadFailure.fileNotFound) [staleRow]
    cexStudent cexTutor none staleRow rfl⟩

/-- C3: after every recompute of a tutor risk summary — create or overwrite —
the stored is_high_risk flag is true if and only if at least one of the
three window rates (a missing rate counting as 0) strictly exceeds the
stored risk threshold; the flag is part of the committed record and is never
set independently of the rates. -/
theorem update_scores_risk_flag_iff (db : ScoreDB) (tutor_id : ℕ) (threshold : ℚ)
    (ts : TutorScore) (db2 : ScoreDB)
    (h : update_scores_for_tutor db tutor_id threshold = Except.ok (ts, db2)) :
    ts ∈ db2.scores ∧
    (ts.is_high_risk = true ↔
      (ts.risk_threshold < ts.reschedule_rate_7d.getD 0 ∨
       ts.risk_threshold < ts.reschedule_rate_30d.getD 0 ∨
       ts.risk_threshold < ts.reschedule_rate_90d.getD 0)) := by
  unfold update_scores_for_tutor at h
  cases hc : db.tutors.contains tutor_id with
  | false =>
    rw [hc] at h
    rw [if_pos rfl] at h
    cases h
  | true =>
    rw [hc] at h
    rw [if_neg (by simp)] at h
    cases hfind : db.scores.find? (fun t0 => t0.tutor_id == tutor_id) with
    | some ts0 =>
      rw [hfind] at h
      simp only [Except.ok.injEq, Prod.mk.injEq] at h
      obtain ⟨h1, h2⟩ := h
      subst h1
      subst h2
      constructor
      · exact mem_updateFirst_const _ _ _ ts0 hfind
      · simp [TutorScore.update_rates, TutorScore.check_risk_flag]
    | none =>
      rw [hfind] at h
      simp only [Except.ok.injEq, Prod.mk.injEq] at h
      obtain ⟨h1, h2⟩ := h
      subst h1
      subst h2
      constructor
      · exact List.mem_append_right _ (List.mem_singleton.mpr rfl)
      · simp [TutorScore.update_rates, TutorScore.check_risk_flag]

/-- A concrete session history: two recent sessions for tutor 1, one of
them rescheduled by the tutor. -/
def demoScheduleDB : ScheduleDB :=
  { sessions := [
      { id := 1, tutor_id := 1, scheduled_time := 999999, status := "rescheduled" },
      { id := 2, tutor_id := 1, scheduled_time := 999000, status := "completed" } ],
    reschedules := [ { id := 1, session_id := 1, initiator := "tutor" } ],
    now := 1000000 }

/-- A concrete score store holding tutor 1 and no score rows yet. -/
def demoScoreDB : ScoreDB :=
  { tutors := [1], scores := [], schedule := demoScheduleDB }

/-- Witness for C3: a concrete recompute that creates the score row. -/
theorem update_scores_risk_flag_iff_witness :
    ∃ ts db2, update_scores_for_tutor demoScoreDB 1 15 = Except.ok (ts, db2) ∧
      ts ∈ db2.scores ∧
      (ts.is_high_risk = true ↔
        (ts.risk_threshold < ts.reschedule_rate_7d.getD 0 ∨
         ts.risk_threshold < ts.reschedule_rate_30d.getD 0 ∨
         ts.risk_threshold < ts.reschedule_rate_90d.getD 0)) :=
  ⟨_, _, rfl, update_scores_risk_flag_iff demoScoreDB 1 15 _ _ rfl⟩

/-- Sums of pointwise sums of naturals split. -/
lemma sum_map_add (S : List α) (f g : α → ℕ) :
    (S.map (fun s => f s + g s)).sum = (S.map f).sum + (S.map g).sum := by
  induction S with
  | nil => rfl
  | cons x xs ih =>
    rw [List.map_cons, List.map_cons, List.map_cons, List.sum_cons, List.sum_cons,
      List.sum_cons, ih]
    omega

/-- A mapped constant zero sums to zero. -/
lemma sum_map_const_zero (S : List α) : (S.map (fun _ => (0 : ℕ))).sum = 0 := by
  induction S with
  | nil => rfl
  | cons x xs ih => rw [List.map_cons, List.sum_cons, ih]

/-- countP as the sum of an indicator. -/
lemma countP_eq_sum_map (S : List α) (p : α → Bool) :
    S.countP p = (S.map (fun s => if p s then 1 else 0)).sum := by
  induction S with
  | nil => rfl
  | cons x xs ih =>
    rw [List.countP_cons, List.map_cons, List.sum_cons, ih]
    omega

/-- Counting matching pairs row-first or column-first agrees (the exchange
of summation behind the SQL join cardinality). -/
lemma sum_count_comm (L : List β) (S : List α) (p : β → α → Bool) :
    (L.map (fun r => S.countP (fun s => p r s))).sum
      = (S.map (fun s => L.countP (fun r => p r s))).sum := by
  induction L with
  | nil =>
    simp only [List.map_nil, List.sum_nil, List.countP_nil]
    rw [sum_map_const_zero]
  | cons r L ih =>
    rw [List.map_cons, List.sum_cons, ih, countP_eq_sum_map S (fun s => p r s),
      ← sum_map_add]
    congr 1
    apply List.map_congr_left
    intro s _
    rw [List.countP_cons]
    omega

/-- Under distinct keys, counting key hits is the indicator of any hit. -/
lemma countP_key_of_nodup (L : List β) (key : β → ℕ) (k : ℕ)
    (h : (L.map key).Nodup) :
    L.countP (fun r => k == key r) = if L.any (fun r => k == key r) then 1 else 0 := by
  induction L with
  | nil => rfl
  | cons r L ih =>
    rw [List.map_cons, List.nodup_cons] at h
    obtain ⟨hnot, hnd⟩ := h
    rw [List.countP_cons, List.any_cons]
    by_cases hk : (k == key r) = true
    · have hzero : L.countP (fun x => k == key x) = 0 := by
        rw [List.countP_eq_zero]
        intro a ha hcon
        apply hnot
        rw [List.mem_map]
        refine ⟨a, ha, ?_⟩
        have h1 : k = key a := by rwa [beq_iff_eq] at hcon
        have h2 : k = key r := by rwa [beq_iff_eq] at hk
        rw [← h1, ← h2]
      rw [hzero, hk]
      simp
    · rw [ih hnd]
      have hk0 : (k == key r) = false := by
        cases hb : (k == key r)
        · rfl
        · exact absurd hb hk
      rw [hk0]
      simp

/-- Natural-number equality tests are symmetric. -/
lemma beq_nat_symm (a b : ℕ) : (a == b) = (b == a) := by
  by_cases h : a = b
  · subst h; rfl
  · have h1 : (a == b) = false := beq_eq_false_iff_ne.mpr h
    have h2 : (b == a) = false := beq_eq_false_iff_ne.mpr (Ne.symm h)
    rw [h1, h2]

/-- any over a filtered list folds the filter into the predicate. -/
lemma any_filter_eq (l : List β) (p q : β → Bool) :
    (l.filter p).any q = l.any (fun a => p a && q a) := by
  induction l with
  | nil => rfl
  | cons x xs ih =>
    rw [List.filter_cons]
    by_cases hp : p x = true
    · rw [if_pos hp, List.any_cons, ih, List.any_cons, hp, Bool.true_and]
    · have hp0 : p x = false := by
        cases hb : p x
        · rfl
        · exact absurd hb hp
      rw [if_neg (by rw [hp0]; exact Bool.false_ne_true), List.any_cons, hp0,
        Bool.false_and, Bool.false_or, ih]

/-- The join count of the calculator equals the spec count of rescheduled
in-window sessions with a tutor-initiated reschedule record, given the
schema unique constraint on reschedules.session_id and the data invariant
that a session with a reschedule record has status rescheduled. -/
lemma join_count_eq_spec (db : ScheduleDB) (tutor_id : ℕ) (start_date : ℤ)
    (huniq : (db.reschedules.map (fun r => r.session_id)).Nodup)
    (hinv : ∀ r ∈ db.reschedules, ∀ s ∈ db.sessions,
      s.id = r.session_id → s.status = "rescheduled") :
    ((db.reschedules.filter (fun r => r.initiator == "tutor")).map
      (fun r => db.sessions.countP
        (fun s => s.id == r.session_id && sessionInWindow tutor_id start_date s))).sum
      = spec_tutor_reschedules db tutor_id start_date := by
  have hTuniq :
      (((db.reschedules.filter (fun r => r.initiator == "tutor")).map
        (fun r => r.session_id))).Nodup :=
    huniq.sublist ((List.filter_sublist db.reschedules).map (fun r => r.session_id))
  rw [sum_count_comm (db.reschedules.filter (fun r => r.initiator == "tutor")) db.sessions
    (fun r s => s.id == r.session_id && sessionInWindow tutor_id start_date s)]
  unfold spec_tutor_reschedules
  rw [countP_eq_sum_map]
  congr 1
  apply List.map_congr_left
  intro s hs
  by_cases hP : sessionInWindow tutor_id start_date s = true
  · rw [show (fun r : RescheduleRec =>
        s.id == r.session_id && sessionInWindow tutor_id start_date s)
        = (fun r : RescheduleRec => s.id == r.session_id) from
      funext fun r => by rw [hP, Bool.and_true]]
    rw [countP_key_of_nodup (db.reschedules.filter (fun r => r.initiator == "tutor"))
      (fun r => r.session_id) s.id hTuniq]
    have hany : ((db.reschedules.filter (fun r => r.initiator == "tutor")).any
        (fun r => s.id == r.session_id))
        = db.reschedules.any (fun r => r.session_id == s.id && r.initiator == "tutor") := by
      rw [any_filter_eq]
      rw [show (fun r : RescheduleRec => r.initiator == "tutor" && (s.id == r.session_id))
          = (fun r : RescheduleRec => r.session_id == s.id && r.initiator == "tutor") from
        funext fun r => by rw [Bool.and_comm, beq_nat_symm]]
    rw [hany]
    cases hA : db.reschedules.any (fun r => r.session_id == s.id && r.initiator == "tutor") with
    | true =>
      obtain ⟨r, hrmem, hrprop⟩ := List.any_eq_true.mp hA
      rw [Bool.and_eq_true] at hrprop
      have hsid : s.id = r.session_id := (beq_iff_eq.mp hrprop.1).symm
      have hst : s.status = "rescheduled" := hinv r hrmem s hs hsid
      rw [hP, hst]
      simp
    | false =>
      rw [Bool.and_false]
  · have hPf : sessionInWindow tutor_id start_date s = false := by
      cases hb : sessionInWindow tutor_id start_date s
      · rfl
      · exact absurd hb hP
    rw [show (fun r : RescheduleRec =>
        s.id == r.session_id && sessionInWindow tutor_id start_date s)
        = (fun _ : RescheduleRec => false) from
      funext fun r => by rw [hPf, Bool.and_false]]
    rw [List.countP_false, hPf, Bool.false_and, Bool.false_and]
    rfl

/-- C4: for every tutor and window, calculate_reschedule_rate returns
(tutor_reschedules / total) * 100 rounded to 2 decimal places, where total
counts the tutor sessions scheduled at or after now minus the window and
tutor_reschedules counts those sessions that have status rescheduled and a
tutor-initiated reschedule record; with zero sessions in the window the
result is exactly 0, never undefined or an error. The hypotheses are the
schema unique constraint on reschedules.session_id and the data invariant
that a session holding a reschedule record has status rescheduled. -/
theorem calculate_reschedule_rate_spec (db : ScheduleDB) (tutor_id : ℕ) (days : ℤ)
    (huniq : (db.reschedules.map (fun r => r.session_id)).Nodup)
    (hinv : ∀ r ∈ db.reschedules, ∀ s ∈ db.sessions,
      s.id = r.session_id → s.status = "rescheduled") :
    calculate_reschedule_rate db tutor_id days =
      (if db.sessions.countP (sessionInWindow tutor_id (db.now - days * 86400)) = 0 then 0
       else round2 ((spec_tutor_reschedules db tutor_id (db.now - days * 86400) : ℚ)
         / (db.sessions.countP (sessionInWindow tutor_id (db.now - days * 86400)) : ℚ)
         * 100)) := by
  simp only [calculate_reschedule_rate]
  rw [join_count_eq_spec db tutor_id (db.now - days * 86400) huniq hinv]

/-- Witness for C4 on the concrete session history. -/
theorem calculate_reschedule_rate_spec_witness :
    ((demoScheduleDB.reschedules.map (fun r => r.session_id)).Nodup ∧
      (∀ r ∈ demoScheduleDB.reschedules, ∀ s ∈ demoScheduleDB.sessions,
        s.id = r.session_id → s.status = "rescheduled")) ∧
    calculate_reschedule_rate demoScheduleDB 1 7 =
      (if demoScheduleDB.sessions.countP
          (sessionInWindow 1 (demoScheduleDB.now - 7 * 86400)) = 0 then 0
       else round2 ((spec_tutor_reschedules demoScheduleDB 1
            (demoScheduleDB.now - 7 * 86400) : ℚ)
         / (demoScheduleDB.sessions.countP
            (sessionInWindow 1 (demoScheduleDB.now - 7 * 86400)) : ℚ) * 100)) :=
  ⟨⟨by decide, by decide⟩,
    calculate_reschedule_rate_spec demoScheduleDB 1 7 (by decide) (by decide)⟩
